import Mathlib

/-!
Shallow embedding of `src/index.ts` of the Image-gen MCP repository
(the `replicate-mcp-server` entry point), together with the parts of the
repository's specification that the verified claims refer to.

The embedding models:
* the MCP error taxonomy (`ErrorCode`, `McpError`) as used by the source;
* JavaScript argument bags as a small JSON-like value type `JVal`, with the
  JS notions of truthiness, member access and string coercion that the
  source relies on;
* the axios HTTP layer as a stub function from a request to an outcome;
* each of the 13 static tool handlers and the 3 dynamic meta-tool handlers
  (`createPrediction` .. `invokeApiEndpoint`), returning the list of HTTP
  requests issued together with the result;
* the `CallToolRequestSchema` dispatcher (`callTool`), including its catch
  block that maps axios errors to internal errors;
* the zod `PredictionInputSchema` numeric-bound semantics;
* the CLI `--tools` flag handling and the `ListToolsRequestSchema` handler.
-/

namespace ImageGenMCP

/-- MCP protocol error codes, as used by the source file. -/
inductive ErrorCode where
  | InvalidRequest
  | InvalidParams
  | MethodNotFound
  | InternalError
deriving DecidableEq, Repr

/-- An `McpError` as constructed in the source: a protocol error code plus a
message string.  The source never attaches any further data. -/
structure McpError where
  code : ErrorCode
  message : String
deriving DecidableEq, Repr

/-- JavaScript values as they appear in tool argument bags: `undefined`,
`null`, strings, numbers (modelled as rationals), booleans, objects and
arrays. -/
inductive JVal where
  | undefined
  | null
  | str (s : String)
  | num (q : Rat)
  | bool (b : Bool)
  | obj (fields : List (String × JVal))
  | arr (elems : List JVal)

/-- Lookup of a key in a JS object field list; missing keys give `undefined`. -/
def getField : List (String × JVal) → String → JVal
  | [], _ => JVal.undefined
  | (k, v) :: rest, key => if k = key then v else getField rest key

/-- JS member access `v.key`: field lookup on objects, `undefined` otherwise. -/
def JVal.get : JVal → String → JVal
  | .obj fields, key => getField fields key
  | _, _ => .undefined

/-- JS truthiness: `undefined`, `null`, `""`, `0` and `false` are falsy. -/
def jvTruthy : JVal → Bool
  | .undefined => false
  | .null => false
  | .str s => s != ""
  | .num q => q != 0
  | .bool b => b
  | .obj _ => true
  | .arr _ => true

/-- JS string coercion as performed by template literals and object
indexing: `undefined` becomes the string "undefined", etc. -/
def jsToString : JVal → String
  | .undefined => "undefined"
  | .null => "null"
  | .str s => s
  | .num q => toString q
  | .bool b => toString b
  | .obj _ => "[object Object]"
  | .arr elems => String.intercalate "," (elems.map fun e =>
      match e with
      | .str s => s
      | .undefined => ""
      | .null => ""
      | .num q => toString q
      | .bool b => toString b
      | _ => "")

/-- JS strict equality of a value against a string literal, as used by
`switch` cases and `===` comparisons in the source. -/
def jvEqString : JVal → String → Bool
  | .str t, s => t == s
  | _, _ => false

/-- Whether `pre` is a prefix of `l`, on character lists. -/
def charsStartWith : List Char → List Char → Bool
  | [], _ => true
  | _ :: _, [] => false
  | a :: as, b :: bs => a == b && charsStartWith as bs

/-- Whether `needle` occurs as a contiguous substring of the character list. -/
def charsIncludes (needle : List Char) : List Char → Bool
  | [] => charsStartWith needle []
  | c :: rest => charsStartWith needle (c :: rest) || charsIncludes needle rest

/-- JS `String.prototype.includes`. -/
def strIncludes (s q : String) : Bool := charsIncludes q.data s.data

/-- HTTP methods used by the source. -/
inductive HttpMethod where
  | GET
  | POST
deriving DecidableEq, Repr

/-- One HTTP request as issued through the axios instance: method, path
relative to the base URL, the Authorization header value, the JSON body
(for POSTs) and the query parameters. -/
structure HttpRequest where
  method : HttpMethod
  path : String
  authHeader : String
  body : JVal := JVal.null
  params : List (String × String) := []

/-- The parsed response data the handlers read: `id` and `status` fields for
job creation, and `raw` standing for `JSON.stringify(response.data, null, 2)`
as echoed by the read-style handlers. -/
structure RemoteData where
  id : String := ""
  status : String := ""
  raw : String := ""
deriving DecidableEq, Repr

/-- Outcome of one axios round trip: a 2xx response with parsed data, or an
axios error carrying the optional upstream HTTP status, the optional
structured `detail` field of the upstream body, and the transport error's
own message. -/
inductive HttpOutcome where
  | ok (d : RemoteData)
  | err (status : Option Nat) (detail : Option String) (message : String)

/-- A stubbed remote API: what the axios instance answers to each request. -/
def StubApi := HttpRequest → HttpOutcome

/-- Errors escaping a handler before the dispatcher's catch block: either an
`McpError` thrown directly, or an axios error. -/
inductive HandlerError where
  | mcp (e : McpError)
  | axios (status : Option Nat) (detail : Option String) (message : String)

/-- One content block of a tool result (the source only ever emits text). -/
inductive ContentBlock where
  | text (s : String)
deriving DecidableEq, Repr

/-- A tool result envelope. -/
structure ToolResult where
  content : List ContentBlock
deriving DecidableEq, Repr

/-- What a handler produces: the HTTP requests it issued, in order, and
either a tool result or an error. -/
abbrev HandlerOut := List HttpRequest × Except HandlerError ToolResult

/-- The Authorization header set at construction:
Token followed by the credential, with a missing credential replaced by the
empty string (JS template `Token dollar-brace REPLICATE_API_TOKEN or empty`). -/
def authHeader (token : Option String) : String := "Token " ++ token.getD ""

/-- JS truthiness of the `REPLICATE_API_TOKEN` environment variable: unset
and empty-string are both falsy. -/
def tokenTruthy : Option String → Bool
  | none => false
  | some t => t != ""

/-- The optional `cursor` query parameter: included only when `args.cursor`
is truthy, mirroring `args.cursor ? { cursor: args.cursor } : ...`. -/
def cursorParams (args : JVal) : List (String × String) :=
  if jvTruthy (args.get "cursor") then [("cursor", jsToString (args.get "cursor"))] else []

/-- Handler for `create_prediction`: rejects the call locally when the
credential is missing, otherwise POSTs the raw argument bag to
`/predictions` and reports the returned id and status. -/
def createPrediction (token : Option String) (api : StubApi) (args : JVal) : HandlerOut :=
  if tokenTruthy token then
    let req : HttpRequest := { method := .POST, path := "/predictions", authHeader := authHeader token, body := args }
    match api req with
    | .ok d => ([req], .ok { content := [.text ("Prediction created successfully. ID: " ++ d.id ++ "\nStatus: " ++ d.status)] })
    | .err s det m => ([req], .error (.axios s det m))
  else
    ([], .error (.mcp { code := .InvalidRequest, message := "REPLICATE_API_TOKEN environment variable is required" }))

/-- Handler for `get_prediction`: one GET of the prediction by id, echoing
the response body. -/
def getPrediction (token : Option String) (api : StubApi) (args : JVal) : HandlerOut :=
  let req : HttpRequest := { method := .GET, path := "/predictions/" ++ jsToString (args.get "prediction_id"), authHeader := authHeader token }
  match api req with
  | .ok d => ([req], .ok { content := [.text d.raw] })
  | .err s det m => ([req], .error (.axios s det m))

/-- Handler for `cancel_prediction`: one POST to the cancel sub-resource. -/
def cancelPrediction (token : Option String) (api : StubApi) (args : JVal) : HandlerOut :=
  let req : HttpRequest := { method := .POST, path := "/predictions/" ++ jsToString (args.get "prediction_id") ++ "/cancel", authHeader := authHeader token }
  match api req with
  | .ok _ => ([req], .ok { content := [.text ("Prediction " ++ jsToString (args.get "prediction_id") ++ " cancelled successfully")] })
  | .err s det m => ([req], .error (.axios s det m))

/-- Handler for `list_predictions`: one GET with an optional cursor. -/
def listPredictions (token : Option String) (api : StubApi) (args : JVal) : HandlerOut :=
  let req : HttpRequest := { method := .GET, path := "/predictions", authHeader := authHeader token, params := cursorParams args }
  match api req with
  | .ok d => ([req], .ok { content := [.text d.raw] })
  | .err s det m => ([req], .error (.axios s det m))

/-- Handler for `list_models`: one GET with an optional cursor. -/
def listModels (token : Option String) (api : StubApi) (args : JVal) : HandlerOut :=
  let req : HttpRequest := { method := .GET, path := "/models", authHeader := authHeader token, params := cursorParams args }
  match api req with
  | .ok d => ([req], .ok { content := [.text d.raw] })
  | .err s det m => ([req], .error (.axios s det m))

/-- Handler for `get_model`: one GET of the owner/name path. -/
def getModel (token : Option String) (api : StubApi) (args : JVal) : HandlerOut :=
  let req : HttpRequest := { method := .GET, path := "/models/" ++ jsToString (args.get "model_owner") ++ "/" ++ jsToString (args.get "model_name"), authHeader := authHeader token }
  match api req with
  | .ok d => ([req], .ok { content := [.text d.raw] })
  | .err s det m => ([req], .error (.axios s det m))

/-- Handler for `search_models`: one GET of `/models` with a mandatory
`query` parameter and an optional cursor. -/
def searchModels (token : Option String) (api : StubApi) (args : JVal) : HandlerOut :=
  let req : HttpRequest := { method := .GET, path := "/models", authHeader := authHeader token, params := ("query", jsToString (args.get "query")) :: cursorParams args }
  match api req with
  | .ok d => ([req], .ok { content := [.text d.raw] })
  | .err s det m => ([req], .error (.axios s det m))

/-- Handler for `list_collections`: one GET with an optional cursor. -/
def listCollections (token : Option String) (api : StubApi) (args : JVal) : HandlerOut :=
  let req : HttpRequest := { method := .GET, path := "/collections", authHeader := authHeader token, params := cursorParams args }
  match api req with
  | .ok d => ([req], .ok { content := [.text d.raw] })
  | .err s det m => ([req], .error (.axios s det m))

/-- Handler for `get_collection`: one GET of the collection by slug. -/
def getCollection (token : Option String) (api : StubApi) (args : JVal) : HandlerOut :=
  let req : HttpRequest := { method := .GET, path := "/collections/" ++ jsToString (args.get "collection_slug"), authHeader := authHeader token }
  match api req with
  | .ok d => ([req], .ok { content := [.text d.raw] })
  | .err s det m => ([req], .error (.axios s det m))

/-- Handler for `create_training`: POSTs the raw argument bag to
`/trainings` unconditionally — unlike `createPrediction` there is no local
check of the credential. -/
def createTraining (token : Option String) (api : StubApi) (args : JVal) : HandlerOut :=
  let req : HttpRequest := { method := .POST, path := "/trainings", authHeader := authHeader token, body := args }
  match api req with
  | .ok d => ([req], .ok { content := [.text ("Training created successfully. ID: " ++ d.id ++ "\nStatus: " ++ d.status)] })
  | .err s det m => ([req], .error (.axios s det m))

/-- Handler for `get_training`: one GET of the training by id. -/
def getTraining (token : Option String) (api : StubApi) (args : JVal) : HandlerOut :=
  let req : HttpRequest := { method := .GET, path := "/trainings/" ++ jsToString (args.get "training_id"), authHeader := authHeader token }
  match api req with
  | .ok d => ([req], .ok { content := [.text d.raw] })
  | .err s det m => ([req], .error (.axios s det m))

/-- Handler for `cancel_training`: one POST to the cancel sub-resource. -/
def cancelTraining (token : Option String) (api : StubApi) (args : JVal) : HandlerOut :=
  let req : HttpRequest := { method := .POST, path := "/trainings/" ++ jsToString (args.get "training_id") ++ "/cancel", authHeader := authHeader token }
  match api req with
  | .ok _ => ([req], .ok { content := [.text ("Training " ++ jsToString (args.get "training_id") ++ " cancelled successfully")] })
  | .err s det m => ([req], .error (.axios s det m))

/-- Handler for `list_trainings`: one GET with an optional cursor. -/
def listTrainings (token : Option String) (api : StubApi) (args : JVal) : HandlerOut :=
  let req : HttpRequest := { method := .GET, path := "/trainings", authHeader := authHeader token, params := cursorParams args }
  match api req with
  | .ok d => ([req], .ok { content := [.text d.raw] })
  | .err s det m => ([req], .error (.axios s det m))

/-- One entry of the dynamic endpoint catalog. -/
structure Endpoint where
  name : String
  resource : String
  operations : List String
deriving DecidableEq, Repr

/-- The hard-coded endpoint catalog of `listApiEndpoints`. -/
def endpointsCatalog : List Endpoint :=
  [ { name := "predictions", resource := "predictions", operations := ["create", "get", "cancel", "list"] },
    { name := "models", resource := "models", operations := ["get", "list", "search"] },
    { name := "collections", resource := "collections", operations := ["get", "list"] },
    { name := "trainings", resource := "trainings", operations := ["create", "get", "cancel", "list"] } ]

/-- The filtering pipeline of `listApiEndpoints`: a truthy `resource`
argument filters by strict equality on the resource field, then a truthy
`search_query` argument filters by substring containment over name and
resource. -/
def listApiEndpointsFiltered (resource searchQuery : JVal) : List Endpoint :=
  let filtered1 :=
    if jvTruthy resource then endpointsCatalog.filter (fun e => jvEqString resource e.resource)
    else endpointsCatalog
  let filtered2 :=
    if jvTruthy searchQuery then
      filtered1.filter (fun e => strIncludes e.name (jsToString searchQuery) || strIncludes e.resource (jsToString searchQuery))
    else filtered1
  filtered2

/-- Rendering of one catalog entry into the text block (standing for
`JSON.stringify`). -/
def renderEndpoint (e : Endpoint) : String :=
  e.name ++ "|" ++ e.resource ++ "|" ++ String.intercalate "," e.operations

/-- Rendering of the filtered catalog into the text block. -/
def renderEndpoints (es : List Endpoint) : String :=
  String.intercalate ";" (es.map renderEndpoint)

/-- Handler for `list_api_endpoints`: filters the catalog and returns it as
text; no HTTP request is issued. -/
def listApiEndpoints (args : JVal) : HandlerOut :=
  ([], .ok { content := [.text (renderEndpoints (listApiEndpointsFiltered (args.get "resource") (args.get "search_query")))] })

/-- A property of a JSON-schema object literal as written in the source. -/
structure PropSpec where
  type : String
  description : String
deriving DecidableEq, Repr

/-- A JSON-schema object literal as written in the source. -/
structure JsonSchemaObj where
  properties : List (String × PropSpec)
  required : List String
deriving DecidableEq, Repr

/-- The `schemas` map of `getApiEndpointSchema`: exactly two entries. -/
def endpointSchemas : List (String × JsonSchemaObj) :=
  [ ("create_prediction",
     { properties :=
         [ ("version", { type := "string", description := "The model version ID" }),
           ("input", { type := "object", description := "Input parameters for the model" }),
           ("webhook", { type := "string", description := "Optional webhook URL for completion notification" }) ],
       required := ["version", "input"] }),
    ("get_prediction",
     { properties :=
         [ ("prediction_id", { type := "string", description := "The ID of the prediction to retrieve" }) ],
       required := ["prediction_id"] }) ]

/-- Rendering of a schema into the text block (standing for
`JSON.stringify`). -/
def renderSchema (s : JsonSchemaObj) : String :=
  "required=" ++ String.intercalate "," s.required ++ ";properties=" ++ String.intercalate "," (s.properties.map Prod.fst)

/-- Handler for `get_api_endpoint_schema`: object indexing of the `schemas`
map by the (string-coerced) endpoint name, with an invalid-params error for
any name lacking an entry. -/
def getApiEndpointSchema (args : JVal) : HandlerOut :=
  match endpointSchemas.lookup (jsToString (args.get "endpoint_name")) with
  | some s => ([], .ok { content := [.text (renderSchema s)] })
  | none => ([], .error (.mcp { code := .InvalidParams, message := "Unknown endpoint: " ++ jsToString (args.get "endpoint_name") }))

/-- Handler for `invoke_api_endpoint`: a switch over the endpoint name with
cases only for `create_prediction` and `get_prediction`, routing
`args.parameters` to the corresponding handler; every other name falls to an
invalid-params unknown-endpoint error. -/
def invokeApiEndpoint (token : Option String) (api : StubApi) (args : JVal) : HandlerOut :=
  if jvEqString (args.get "endpoint_name") "create_prediction" then
    createPrediction token api (args.get "parameters")
  else if jvEqString (args.get "endpoint_name") "get_prediction" then
    getPrediction token api (args.get "parameters")
  else
    ([], .error (.mcp { code := .InvalidParams, message := "Unknown endpoint: " ++ jsToString (args.get "endpoint_name") }))

/-- The `switch (name)` of the `CallToolRequestSchema` handler, before the
catch block: each known tool name routes to its handler, every other name
throws a method-not-found error.  The switch never consults the configured
tool-exposure mode. -/
def callToolInner (token : Option String) (api : StubApi) (name : String) (args : JVal) : HandlerOut :=
  if name = "create_prediction" then createPrediction token api args
  else if name = "get_prediction" then getPrediction token api args
  else if name = "cancel_prediction" then cancelPrediction token api args
  else if name = "list_predictions" then listPredictions token api args
  else if name = "list_models" then listModels token api args
  else if name = "get_model" then getModel token api args
  else if name = "search_models" then searchModels token api args
  else if name = "list_collections" then listCollections token api args
  else if name = "get_collection" then getCollection token api args
  else if name = "create_training" then createTraining token api args
  else if name = "get_training" then getTraining token api args
  else if name = "cancel_training" then cancelTraining token api args
  else if name = "list_trainings" then listTrainings token api args
  else if name = "list_api_endpoints" then listApiEndpoints args
  else if name = "get_api_endpoint_schema" then getApiEndpointSchema args
  else if name = "invoke_api_endpoint" then invokeApiEndpoint token api args
  else ([], .error (.mcp { code := .MethodNotFound, message := "Unknown tool: " ++ name }))

/-- JS `a || b` on the optional `detail` field: a present, non-empty detail
wins; otherwise the transport message. -/
def jsOrMessage (detail : Option String) (message : String) : String :=
  match detail with
  | some d => if d = "" then message else d
  | none => message

/-- The catch block of the dispatcher: an axios error becomes an
internal-error `McpError` whose message is the upstream detail when present
and otherwise the transport error message; thrown `McpError`s pass through. -/
def wrapHandlerError : HandlerError → McpError
  | .mcp e => e
  | .axios _ detail message => { code := .InternalError, message := "Replicate API error: " ++ jsOrMessage detail message }

/-- Server configuration relevant to dispatch: the tool-exposure mode flag
and the credential from the environment. -/
structure Config where
  dynamicTools : Bool
  token : Option String

/-- The full `CallToolRequestSchema` handler: dispatch through the switch,
then map escaping errors through the catch block. -/
def callTool (cfg : Config) (api : StubApi) (name : String) (args : JVal) : List HttpRequest × Except McpError ToolResult :=
  let out := callToolInner cfg.token api name args
  (out.1, out.2.mapError wrapHandlerError)

/-- The 13 static tool names, in declaration order. -/
def staticToolNames : List String :=
  ["create_prediction", "get_prediction", "cancel_prediction", "list_predictions",
   "list_models", "get_model", "search_models", "list_collections", "get_collection",
   "create_training", "get_training", "cancel_training", "list_trainings"]

/-- The 3 dynamic meta-tool names. -/
def dynamicToolNames : List String :=
  ["list_api_endpoints", "get_api_endpoint_schema", "invoke_api_endpoint"]

/-- All tool names the dispatcher's switch recognizes. -/
def allToolNames : List String := staticToolNames ++ dynamicToolNames

/-- The CLI conversion: `serverOptions.dynamicTools` is set when the
`--tools` flag is `dynamic` or `both`. -/
def serverOptionsDynamicTools (toolsFlag : String) : Bool :=
  toolsFlag = "dynamic" || toolsFlag = "both"

/-- The constructor's mode computation:
`options.dynamicTools or options.tools equal to dynamic`. -/
def effectiveDynamicTools (toolsFlag : String) : Bool :=
  serverOptionsDynamicTools toolsFlag || toolsFlag = "dynamic"

/-- The `ListToolsRequestSchema` handler: the dynamic set in dynamic mode,
the static set otherwise — never the union. -/
def listedToolNames (toolsFlag : String) : List String :=
  if effectiveDynamicTools toolsFlag then dynamicToolNames else staticToolNames

/-- Semantics of a zod field `z.number().min(lo).max(hi).default(dflt)` as
declared in `PredictionInputSchema`: an absent field takes the default, a
non-number is a type error, and a number outside the declared bounds is
rejected with a too-small or too-big issue — zod checks the bounds, it does
not clamp to them. -/
def zodBoundedNumber (lo hi dflt : Rat) : JVal → Except String Rat
  | .undefined => .ok dflt
  | .num q =>
    if q < lo then .error "too_small"
    else if hi < q then .error "too_big"
    else .ok q
  | _ => .error "invalid_type"

/-- The numeric fields of `PredictionInputSchema` that carry declared
bounds, with their (min, max, default) triples as written in the source. -/
def predictionNumericBounds : List (String × Rat × Rat × Rat) :=
  [ ("width", 256, 4096, 1024),
    ("height", 256, 4096, 1024),
    ("num_outputs", 1, 4, 1),
    ("guidance_scale", 1, 20, 7),
    ("num_inference_steps", 1, 100, 20) ]

/-- Job statuses observed while polling, per the remote API vocabulary. -/
inductive PollStatus where
  | starting
  | processing
  | succeeded
  | failed
  | canceled
deriving DecidableEq, Repr

/-- One fetched view of a remote job during polling. -/
structure JobView where
  status : PollStatus
  output : List String := []
  error : Option String := none
deriving DecidableEq, Repr

/-- Terminal outcome of the poll loop. -/
inductive PollResult where
  | success (output : List String)
  | failure (msg : String)
deriving DecidableEq, Repr

/-- Modelled from the spec: the Async Job Poller transition rule of §4.3 is
not present in `src/index.ts` (`createPrediction` and `createTraining`
return immediately after the single create call); this classifies one
fetched status: succeeded is terminal success carrying the output, failed is
terminal failure carrying the upstream error (or a fixed placeholder when
absent), canceled is terminal failure, and any in-progress status keeps
polling. -/
def pollClassify (j : JobView) : Option PollResult :=
  match j.status with
  | .succeeded => some (.success j.output)
  | .failed => some (.failure (j.error.getD "Prediction failed"))
  | .canceled => some (.failure "canceled")
  | .starting => none
  | .processing => none

/-- Modelled from the spec: the poll loop of §4.3, over a stubbed remote API
where the k-th status fetch returns `get k`.  It fetches, classifies, and
stops at the first terminal status, returning the outcome together with the
number of status fetches performed; `fuel` bounds the recursion (the spec
imposes no bound, so exhausting fuel yields no result). -/
def pollFrom (get : Nat → JobView) (k fuel : Nat) : Option (PollResult × Nat) :=
  match fuel with
  | 0 => none
  | fuel' + 1 =>
    match pollClassify (get k) with
    | some r => some (r, k + 1)
    | none => pollFrom get (k + 1) fuel'

/-- The create call of the stubbed flow: returns the new job id. -/
structure CreateResponse where
  id : String
deriving DecidableEq, Repr

/-- Result of the whole submit-then-poll flow: how many create calls were
made, and the poll outcome paired with the number of status fetches. -/
structure SubmitOutcome where
  createCalls : Nat
  result : Option (PollResult × Nat)
deriving DecidableEq, Repr

/-- Modelled from the spec: the async job submission flow of §4.3 — one
create call, then the poll loop starting at the first status fetch. -/
def submitAndPoll (create : Unit → CreateResponse) (get : Nat → JobView) (fuel : Nat) : SubmitOutcome :=
  let _r := create ()
  { createCalls := 1, result := pollFrom get 0 fuel }

/-- A stubbed remote API answering every request with a 2xx response whose
data carries id X and status starting. -/
def stubOk : StubApi := fun _ => HttpOutcome.ok { id := "X", status := "starting", raw := "RAW" }

/-- A stubbed remote API failing every request with the given upstream
status, structured detail and transport message. -/
def stubFail (s : Option Nat) (det : Option String) (m : String) : StubApi :=
  fun _ => HttpOutcome.err s det m

/-- A stubbed remote API failing every request with HTTP 422, a structured
detail field, and the transport message axios would synthesize. -/
def stubErr422 : StubApi :=
  fun _ => HttpOutcome.err (some 422) (some "Invalid version") "Request failed with status code 422"

/-- An argument bag for `create_prediction` whose nested input carries
`width = 10`, below the declared minimum of 256. -/
def argsWidth10 : JVal :=
  .obj [("version", .str "v1"), ("input", .obj [("prompt", .str "p"), ("width", .num 10)])]

/-- An argument bag for `create_prediction` missing the required `version`
field. -/
def argsNoVersion : JVal := .obj [("input", .obj [("prompt", .str "p")])]

/-- An optional string argument as the corresponding JS value: absent maps
to `undefined`. -/
def optJVal : Option String → JVal
  | none => .undefined
  | some s => .str s

/-- Whether a dispatched call produced a tool result rather than an error. -/
def isOkResult : Except McpError ToolResult → Bool
  | .ok _ => true
  | .error _ => false

/-- The operations advertised by the dynamic catalog other than the two the
invoke switch handles, spelled as the tool names of the corresponding
static handlers. -/
def catalogOtherOpToolNames : List String :=
  ["cancel_prediction", "list_predictions", "get_model", "list_models", "search_models",
   "list_collections", "get_collection", "create_training", "get_training",
   "cancel_training", "list_trainings"]

/-- A well-formed argument bag for each registered tool name. -/
def goodArgs : String → JVal
  | "create_prediction" => .obj [("version", .str "v1"), ("input", .obj [("prompt", .str "p")])]
  | "invoke_api_endpoint" => .obj [("endpoint_name", .str "get_prediction"), ("parameters", .obj [("prediction_id", .str "p1")])]
  | "get_api_endpoint_schema" => .obj [("endpoint_name", .str "create_prediction")]
  | _ => .obj [("prediction_id", .str "p1"), ("training_id", .str "t1"),
               ("model_owner", .str "o"), ("model_name", .str "m"),
               ("collection_slug", .str "c"), ("query", .str "q")]

/-- Claim C2: in the async job submission flow, when the create call returns
an id and the first status fetch already reports succeeded with an output,
the poller performs exactly one create call and exactly one status fetch —
at least one, and none after the terminal status — and returns that output. -/
theorem claim_C2 (create : Unit → CreateResponse) (get : Nat → JobView)
    (fuel : Nat) (out : List String) (hfuel : 0 < fuel)
    (hget : get 0 = { status := .succeeded, output := out, error := none }) :
    submitAndPoll create get fuel =
      { createCalls := 1, result := some (.success out, 1) } := by
  cases fuel with
  | zero => exact absurd hfuel (by simp)
  | succ n => simp [submitAndPoll, pollFrom, hget, pollClassify]

/-- Witness for C2 at a concrete stubbed API: create returns id X, every
get reports succeeded with one image URL. -/
theorem claim_C2_witness :
    submitAndPoll (fun _ => { id := "X" })
      (fun _ => { status := .succeeded, output := ["https://example/img.png"], error := none }) 5 =
      { createCalls := 1, result := some (.success ["https://example/img.png"], 1) } :=
  claim_C2 _ _ 5 _ (by norm_num) rfl

/-- Claim C5: any tool name outside the registered set fails with a
method-not-found protocol error (and so never with invalid-params). -/
theorem claim_C5 (cfg : Config) (api : StubApi) (name : String) (args : JVal)
    (h : name ∉ allToolNames) :
    callTool cfg api name args =
      ([], .error { code := .MethodNotFound, message := "Unknown tool: " ++ name }) := by
  simp only [allToolNames, staticToolNames, dynamicToolNames, List.append_eq, List.cons_append,
    List.nil_append, List.mem_cons, List.not_mem_nil, or_false, not_or] at h
  obtain ⟨h1, h2, h3, h4, h5, h6, h7, h8, h9, h10, h11, h12, h13, h14, h15, h16⟩ := h
  simp [callTool, callToolInner, h1, h2, h3, h4, h5, h6, h7, h8, h9, h10, h11, h12, h13,
    h14, h15, h16, Except.mapError, wrapHandlerError]

/-- Witness for C5 at the concrete unregistered name does_not_exist. -/
theorem claim_C5_witness :
    callTool { dynamicTools := false, token := some "tok" } stubOk "does_not_exist" (.obj []) =
      ([], .error { code := .MethodNotFound, message := "Unknown tool: does_not_exist" }) :=
  claim_C5 _ _ _ _ (by decide)

/-- Claim C8: with the credential unset, create_prediction is rejected
locally with an invalid-request error before any HTTP request, while
create_training issues its POST unconditionally with an Authorization
header whose token portion is the empty string. -/
theorem claim_C8 (d : Bool) (api : StubApi) (args : JVal) :
    callTool { dynamicTools := d, token := none } api "create_prediction" args =
      ([], .error { code := .InvalidRequest, message := "REPLICATE_API_TOKEN environment variable is required" }) ∧
    (callTool { dynamicTools := d, token := none } api "create_training" args).1 =
      [{ method := .POST, path := "/trainings", authHeader := "Token ", body := args }] := by
  constructor
  · rfl
  · show (createTraining none api args).1 = _
    simp only [createTraining]
    split <;> rfl

/-- Claim C9: the invoke switch routes exactly the names create_prediction
and get_prediction to their handlers; every operation of the advertised
catalog other than those two fails with an unknown-endpoint error, and the
schema map has an entry exactly for those same two names. -/
theorem claim_C9 :
    (∀ token : Option String, ∀ api : StubApi, ∀ params : JVal,
      invokeApiEndpoint token api (.obj [("endpoint_name", .str "create_prediction"), ("parameters", params)]) =
        createPrediction token api params) ∧
    (∀ token : Option String, ∀ api : StubApi, ∀ params : JVal,
      invokeApiEndpoint token api (.obj [("endpoint_name", .str "get_prediction"), ("parameters", params)]) =
        getPrediction token api params) ∧
    (∀ name, name ∈ catalogOtherOpToolNames → ∀ token : Option String, ∀ api : StubApi, ∀ params : JVal,
      invokeApiEndpoint token api (.obj [("endpoint_name", .str name), ("parameters", params)]) =
        ([], .error (.mcp { code := .InvalidParams, message := "Unknown endpoint: " ++ name }))) ∧
    (∀ name, (endpointSchemas.lookup name).isSome = true ↔
      (name = "create_prediction" ∨ name = "get_prediction")) := by
  refine ⟨fun _ _ _ => rfl, fun _ _ _ => rfl, ?_, ?_⟩
  · intro name hmem token api params
    fin_cases hmem <;> rfl
  · intro name
    constructor
    · intro h
      by_cases h1 : name = "create_prediction"
      · exact Or.inl h1
      by_cases h2 : name = "get_prediction"
      · exact Or.inr h2
      have e1 : (name == "create_prediction") = false := by simp [h1]
      have e2 : (name == "get_prediction") = false := by simp [h2]
      simp [endpointSchemas, List.lookup, e1, e2] at h
    · rintro (rfl | rfl) <;> rfl

/-- Witness for C9: invoking the catalog-advertised cancel operation fails
with an unknown-endpoint error, while create_prediction has a schema. -/
theorem claim_C9_witness :
    invokeApiEndpoint (some "tok") stubOk
        (.obj [("endpoint_name", .str "cancel_prediction"), ("parameters", .obj [])]) =
      ([], .error (.mcp { code := .InvalidParams, message := "Unknown endpoint: cancel_prediction" })) ∧
    (endpointSchemas.lookup "create_prediction").isSome = true :=
  ⟨claim_C9.2.2.1 "cancel_prediction" (by decide) (some "tok") stubOk (.obj []),
   (claim_C9.2.2.2 "create_prediction").mpr (Or.inl rfl)⟩

/-- Claim C10: the call-tool switch never consults the tool-exposure mode,
so every one of the 13 static and 3 dynamic tool names dispatches in any
mode; the list-tools handler returns either only the static set or only the
dynamic set, and the both flag lists exactly the three dynamic meta-tools. -/
theorem claim_C10 :
    (∀ d1 d2 : Bool, ∀ t : Option String, ∀ api : StubApi, ∀ name : String, ∀ args : JVal,
      callTool { dynamicTools := d1, token := t } api name args =
        callTool { dynamicTools := d2, token := t } api name args) ∧
    (∀ d : Bool, ∀ name, name ∈ allToolNames →
      isOkResult (callTool { dynamicTools := d, token := some "tok" } stubOk name (goodArgs name)).2 = true) ∧
    staticToolNames.length = 13 ∧
    dynamicToolNames.length = 3 ∧
    listedToolNames "both" = dynamicToolNames ∧
    (∀ flag : String, listedToolNames flag = dynamicToolNames ∨ listedToolNames flag = staticToolNames) := by
  refine ⟨fun _ _ _ _ _ _ => rfl, ?_, rfl, rfl, rfl, ?_⟩
  · intro d name hmem
    fin_cases hmem <;> rfl
  · intro flag
    cases h : effectiveDynamicTools flag
    · exact Or.inr (by simp [listedToolNames, h])
    · exact Or.inl (by simp [listedToolNames, h])

/-- Witness for C10: create_prediction dispatches successfully while the
server is configured in dynamic mode. -/
theorem claim_C10_witness :
    isOkResult (callTool { dynamicTools := true, token := some "tok" } stubOk
      "create_prediction" (goodArgs "create_prediction")).2 = true :=
  claim_C10.2.1 true "create_prediction" (by decide)

/-- Behaviour of a zod bounded-number field on a numeric input: in-range
passes through, below-min and above-max are rejected, never clamped. -/
theorem zodBoundedNumber_cases (lo hi dflt q : Rat) (hlohi : lo ≤ hi) :
    (lo ≤ q → q ≤ hi → zodBoundedNumber lo hi dflt (.num q) = .ok q) ∧
    (q < lo → zodBoundedNumber lo hi dflt (.num q) = .error "too_small") ∧
    (hi < q → zodBoundedNumber lo hi dflt (.num q) = .error "too_big") := by
  refine ⟨fun h1 h2 => ?_, fun h => ?_, fun h => ?_⟩
  · simp [zodBoundedNumber, not_lt.mpr h1, not_lt.mpr h2]
  · simp [zodBoundedNumber, h]
  · have hq : ¬ q < lo := not_lt.mpr (le_of_lt (lt_of_le_of_lt hlohi h))
    simp [zodBoundedNumber, hq, h]

/-- Claim C1 counterexample: width 10 under the declared [256, 4096] bound
is rejected with a too-small validation error — it does not coerce to 256;
and the schema is never applied anyway: create_prediction forwards the raw
argument bag, width 10 included, as the request body. -/
theorem claim_C1_counterexample :
    zodBoundedNumber 256 4096 1024 (.num 10) = .error "too_small" ∧
    zodBoundedNumber 256 4096 1024 (.num 10) ≠ .ok 256 ∧
    (callTool { dynamicTools := false, token := some "tok" } stubOk "create_prediction" argsWidth10).1 =
      [{ method := .POST, path := "/predictions", authHeader := "Token tok", body := argsWidth10 }] :=
  ⟨rfl, fun h => Except.noConfusion h, rfl⟩

/-- Claim C1 (amended): for every numeric field of PredictionInputSchema
carrying declared bounds, an in-range value parses through unchanged, while
an out-of-range value is rejected with a validation error (too-small below
min, too-big above max) rather than clamped; moreover the schema is never
applied by create_prediction, which forwards the raw argument bag as the
request body unchanged. -/
theorem claim_C1_amended (nm : String) (lo hi dflt q : Rat)
    (hmem : (nm, lo, hi, dflt) ∈ predictionNumericBounds) :
    ((lo ≤ q → q ≤ hi → zodBoundedNumber lo hi dflt (.num q) = .ok q) ∧
     (q < lo → zodBoundedNumber lo hi dflt (.num q) = .error "too_small") ∧
     (hi < q → zodBoundedNumber lo hi dflt (.num q) = .error "too_big")) ∧
    (∀ cfg : Config, ∀ api : StubApi, ∀ args : JVal,
      tokenTruthy cfg.token = true →
      ∀ r ∈ (callTool cfg api "create_prediction" args).1, r.body = args) := by
  constructor
  · have hlohi : lo ≤ hi := by
      fin_cases hmem <;> norm_num
    exact zodBoundedNumber_cases lo hi dflt q hlohi
  · intro cfg api args htok r hr
    have hshow : (callTool cfg api "create_prediction" args).1 =
        (createPrediction cfg.token api args).1 := rfl
    rw [hshow] at hr
    simp only [createPrediction, htok, if_true] at hr
    split at hr <;> simp_all

/-- Witness for C1 (amended): width 300 is in range and passes through; the
body of the issued create request is the original argument bag. -/
theorem claim_C1_amended_witness :
    zodBoundedNumber 256 4096 1024 (.num 300) = .ok 300 ∧
    ∀ r ∈ (callTool { dynamicTools := false, token := some "tok" } stubOk
        "create_prediction" argsWidth10).1, r.body = argsWidth10 :=
  ⟨(claim_C1_amended "width" 256 4096 1024 300 (by decide)).1.1 (by norm_num) (by norm_num),
   (claim_C1_amended "width" 256 4096 1024 300 (by decide)).2
     { dynamicTools := false, token := some "tok" } stubOk argsWidth10 (by decide)⟩

/-- Claim C3 counterexample: calling create_prediction without the required
version field does not fail with invalid-params before any network request
— with the credential set, exactly one HTTP POST is issued carrying the
incomplete bag as its body, and the call succeeds against a 2xx stub. -/
theorem claim_C3_counterexample :
    callTool { dynamicTools := false, token := some "tok" } stubOk "create_prediction" argsNoVersion =
      ([{ method := .POST, path := "/predictions", authHeader := "Token tok", body := argsNoVersion }],
       .ok { content := [.text "Prediction created successfully. ID: X\nStatus: starting"] }) ∧
    (callTool { dynamicTools := false, token := some "tok" } stubOk "create_prediction" argsNoVersion).1.length = 1 :=
  ⟨rfl, rfl⟩

/-- Claim C3 (amended): the call-tool operation performs no local validation
of tool arguments against the declared schema: whatever fields are missing,
create_prediction with a truthy credential issues exactly one HTTP request
whose body is the raw argument bag, and never fails with invalid-params —
the only local pre-network rejection is the missing-credential
invalid-request error. -/
theorem claim_C3_amended (cfg : Config) (api : StubApi) (args : JVal)
    (htok : tokenTruthy cfg.token = true) :
    (callTool cfg api "create_prediction" args).1.length = 1 ∧
    (callTool cfg api "create_prediction" args).1.map HttpRequest.body = [args] ∧
    ∀ msg, (callTool cfg api "create_prediction" args).2 ≠
      .error { code := .InvalidParams, message := msg } := by
  have hshow : callTool cfg api "create_prediction" args =
      ((createPrediction cfg.token api args).1,
       (createPrediction cfg.token api args).2.mapError wrapHandlerError) := rfl
  rw [hshow]
  simp only [createPrediction, htok, if_true]
  split <;> simp [wrapHandlerError, Except.mapError, jsOrMessage, McpError.mk.injEq]

/-- Witness for C3 (amended): the concrete version-less bag issues one
request whose body is that bag and yields no invalid-params error. -/
theorem claim_C3_amended_witness :
    (callTool { dynamicTools := false, token := some "tok" } stubOk "create_prediction" argsNoVersion).1.length = 1 ∧
    (callTool { dynamicTools := false, token := some "tok" } stubOk "create_prediction" argsNoVersion).1.map HttpRequest.body = [argsNoVersion] ∧
    ∀ msg, (callTool { dynamicTools := false, token := some "tok" } stubOk "create_prediction" argsNoVersion).2 ≠
      .error { code := .InvalidParams, message := msg } :=
  claim_C3_amended { dynamicTools := false, token := some "tok" } stubOk argsNoVersion (by decide)

/-- Claim C4 counterexample: invoking the unknown endpoint name
cancel_prediction fails with an invalid-params error, not method-not-found,
through invoke_api_endpoint as well as through get_api_endpoint_schema. -/
theorem claim_C4_counterexample :
    callTool { dynamicTools := true, token := some "tok" } stubOk "invoke_api_endpoint"
        (.obj [("endpoint_name", .str "cancel_prediction"), ("parameters", .obj [])]) =
      ([], .error { code := .InvalidParams, message := "Unknown endpoint: cancel_prediction" }) ∧
    callTool { dynamicTools := true, token := some "tok" } stubOk "get_api_endpoint_schema"
        (.obj [("endpoint_name", .str "cancel_prediction")]) =
      ([], .error { code := .InvalidParams, message := "Unknown endpoint: cancel_prediction" }) ∧
    ErrorCode.InvalidParams ≠ ErrorCode.MethodNotFound :=
  ⟨rfl, rfl, by decide⟩

/-- Claim C4 (amended): for every endpoint name outside the two the switch
handles, invoke_api_endpoint and get_api_endpoint_schema both fail with an
invalid-params unknown-endpoint protocol error — not method-not-found. -/
theorem claim_C4_amended (cfg : Config) (api : StubApi) (name : String) (params : JVal)
    (h1 : name ≠ "create_prediction") (h2 : name ≠ "get_prediction") :
    callTool cfg api "invoke_api_endpoint" (.obj [("endpoint_name", .str name), ("parameters", params)]) =
      ([], .error { code := .InvalidParams, message := "Unknown endpoint: " ++ name }) ∧
    callTool cfg api "get_api_endpoint_schema" (.obj [("endpoint_name", .str name)]) =
      ([], .error { code := .InvalidParams, message := "Unknown endpoint: " ++ name }) := by
  have hb1 : (name == "create_prediction") = false := by simp [h1]
  have hb2 : (name == "get_prediction") = false := by simp [h2]
  constructor
  · have hshow : callTool cfg api "invoke_api_endpoint" (.obj [("endpoint_name", .str name), ("parameters", params)]) =
        ((invokeApiEndpoint cfg.token api (.obj [("endpoint_name", .str name), ("parameters", params)])).1,
         (invokeApiEndpoint cfg.token api (.obj [("endpoint_name", .str name), ("parameters", params)])).2.mapError wrapHandlerError) := rfl
    have hget : (JVal.obj [("endpoint_name", .str name), ("parameters", params)]).get "endpoint_name" = .str name := rfl
    rw [hshow]
    simp [invokeApiEndpoint, hget, jvEqString, hb1, hb2, jsToString, wrapHandlerError, Except.mapError]
  · have hshow : callTool cfg api "get_api_endpoint_schema" (.obj [("endpoint_name", .str name)]) =
        ((getApiEndpointSchema (.obj [("endpoint_name", .str name)])).1,
         (getApiEndpointSchema (.obj [("endpoint_name", .str name)])).2.mapError wrapHandlerError) := rfl
    have hget : (JVal.obj [("endpoint_name", .str name)]).get "endpoint_name" = .str name := rfl
    rw [hshow]
    simp [getApiEndpointSchema, hget, jsToString, endpointSchemas, List.lookup, hb1, hb2,
      wrapHandlerError, Except.mapError]

/-- Witness for C4 (amended) at the concrete unknown name foo. -/
theorem claim_C4_amended_witness :
    callTool { dynamicTools := true, token := some "tok" } stubOk "invoke_api_endpoint"
        (.obj [("endpoint_name", .str "foo"), ("parameters", .obj [])]) =
      ([], .error { code := .InvalidParams, message := "Unknown endpoint: foo" }) :=
  (claim_C4_amended { dynamicTools := true, token := some "tok" } stubOk "foo" (.obj [])
    (by decide) (by decide)).1

/-- Claim C6 counterexample: a failing upstream request with HTTP status 422
and structured detail yields an internal-error whose message is the detail
only — the McpError of the source carries just a code and a message, and
neither mentions the upstream status code. -/
theorem claim_C6_counterexample :
    callTool { dynamicTools := false, token := some "tok" } stubErr422 "get_prediction"
        (.obj [("prediction_id", .str "p1")]) =
      ([{ method := .GET, path := "/predictions/p1", authHeader := "Token tok" }],
       .error { code := .InternalError, message := "Replicate API error: Invalid version" }) ∧
    strIncludes "Replicate API error: Invalid version" "422" = false :=
  ⟨rfl, rfl⟩

/-- Claim C6 (amended): for every static tool whose HTTP request fails, the
invocation terminates with an internal-error protocol error whose message
carries the upstream detail when present and otherwise the transport error
message; exactly one HTTP request is issued (no retry), but the upstream
status code is not attached to the protocol error. -/
theorem claim_C6_amended (name : String) (hmem : name ∈ staticToolNames)
    (cfg : Config) (args : JVal) (s : Option Nat) (det : Option String) (m : String)
    (htok : tokenTruthy cfg.token = true) :
    (callTool cfg (stubFail s det m) name args).1.length = 1 ∧
    (callTool cfg (stubFail s det m) name args).2 =
      .error { code := .InternalError, message := "Replicate API error: " ++ jsOrMessage det m } := by
  fin_cases hmem <;>
    first
    | exact ⟨rfl, rfl⟩
    | (constructor <;>
        (have hshow : callTool cfg (stubFail s det m) "create_prediction" args =
            ((createPrediction cfg.token (stubFail s det m) args).1,
             (createPrediction cfg.token (stubFail s det m) args).2.mapError wrapHandlerError) := rfl
         rw [hshow]
         simp [createPrediction, htok, stubFail, wrapHandlerError, Except.mapError]))

/-- Witness for C6 (amended) at get_model with a transport failure carrying
no structured detail. -/
theorem claim_C6_amended_witness :
    ((callTool { dynamicTools := false, token := some "tok" } (stubFail (some 500) none "boom") "get_model" (.obj [])).1.length = 1) ∧
    (callTool { dynamicTools := false, token := some "tok" } (stubFail (some 500) none "boom") "get_model" (.obj [])).2 =
      .error { code := .InternalError, message := "Replicate API error: " ++ jsOrMessage none "boom" } :=
  claim_C6_amended "get_model" (by decide) { dynamicTools := false, token := some "tok" }
    (.obj []) (some 500) none "boom" (by decide)

/-- Claim C7 counterexample: with both a resource filter and a search query
supplied, the result is the composition of the two filters — for
resource predictions and search query models it is empty, not exactly the
entries whose resource equals predictions. -/
theorem claim_C7_counterexample :
    listApiEndpointsFiltered (.str "predictions") (.str "models") = [] ∧
    endpointsCatalog.filter (fun e => e.resource == "predictions") =
      [{ name := "predictions", resource := "predictions", operations := ["create", "get", "cancel", "list"] }] ∧
    callTool { dynamicTools := true, token := some "tok" } stubOk "list_api_endpoints"
        (.obj [("resource", .str "predictions"), ("search_query", .str "models")]) =
      ([], .ok { content := [.text ""] }) :=
  ⟨rfl, rfl, rfl⟩

/-- Membership in the filtered catalog: an entry survives exactly when it is
in the catalog and passes whichever of the two filters is truthy. -/
theorem mem_listApiEndpointsFiltered (resource searchQuery : JVal) (e : Endpoint) :
    e ∈ listApiEndpointsFiltered resource searchQuery ↔
      e ∈ endpointsCatalog ∧
      (jvTruthy resource = true → jvEqString resource e.resource = true) ∧
      (jvTruthy searchQuery = true →
        (strIncludes e.name (jsToString searchQuery) || strIncludes e.resource (jsToString searchQuery)) = true) := by
  unfold listApiEndpointsFiltered
  cases hr : jvTruthy resource <;> cases hq : jvTruthy searchQuery <;>
    simp [List.mem_filter, hr, hq, and_assoc]
  exact fun _ => And.comm

/-- Claim C7 (amended): list_api_endpoints composes its two filters — an
entry is returned exactly when it is in the catalog, matches the resource
filter when a non-empty one is supplied, and contains the search query in
its name or resource when a non-empty one is supplied; with no filters the
full four-entry catalog is returned, and with only a non-empty resource
filter exactly the equality-matching entries are returned. -/
theorem claim_C7_amended (r q : Option String) (e : Endpoint) :
    (e ∈ listApiEndpointsFiltered (optJVal r) (optJVal q) ↔
      e ∈ endpointsCatalog ∧
      (∀ rv, r = some rv → rv ≠ "" → e.resource = rv) ∧
      (∀ qv, q = some qv → qv ≠ "" →
        (strIncludes e.name qv || strIncludes e.resource qv) = true)) ∧
    listApiEndpointsFiltered (optJVal none) (optJVal none) = endpointsCatalog ∧
    (∀ rv : String, rv ≠ "" →
      listApiEndpointsFiltered (optJVal (some rv)) (optJVal none) =
        endpointsCatalog.filter (fun e => rv == e.resource)) := by
  refine ⟨?_, rfl, ?_⟩
  · rw [mem_listApiEndpointsFiltered]
    refine and_congr_right fun _ => and_congr ?_ ?_
    · cases r with
      | none => simp [optJVal, jvTruthy]
      | some rv =>
        simp only [optJVal, jvTruthy, jvEqString, bne_iff_ne, ne_eq, beq_iff_eq,
          Option.some.injEq]
        constructor
        · intro h rv' hrv hne
          subst hrv
          exact (h hne).symm
        · intro h hne
          exact (h rv rfl hne).symm
    · cases q with
      | none => simp [optJVal, jvTruthy]
      | some qv =>
        simp only [optJVal, jvTruthy, jsToString, bne_iff_ne, ne_eq, Option.some.injEq]
        constructor
        · intro h qv' hqv hne
          subst hqv
          exact h hne
        · intro h hne
          exact h qv rfl hne
  · intro rv hrv
    have hbr : (rv != "") = true := by simp [hrv]
    simp [listApiEndpointsFiltered, optJVal, jvTruthy, hbr, jvEqString]

/-- Witness for C7 (amended): with only the resource filter predictions,
exactly the equality-matching catalog entries are returned. -/
theorem claim_C7_amended_witness :
    listApiEndpointsFiltered (optJVal (some "predictions")) (optJVal none) =
      endpointsCatalog.filter (fun e => "predictions" == e.resource) :=
  (claim_C7_amended (some "predictions") none
    { name := "x", resource := "y", operations := [] }).2.2 "predictions" (by decide)

end ImageGenMCP
